import Mathlib

/-!
Verification of the chronos-calendar backend sync core against its
natural-language specification.

The Python sources are shallowly embedded:
* bytes are `List Nat` with every element `< 256`;
* Python strings appearing as opaque payloads are Lean `String`s, strings
  that are processed byte-wise (plaintexts, keys) are their UTF-8 byte
  lists `List Nat`, base64 text is `List Char`;
* `None`-able values are `Option`; Python truthiness of an optional string
  (`if tok:`) is `truthyStr`;
* exceptions are `Except`/`Option` results;
* the AES-GCM primitive and the PBKDF2 key-derivation function from the
  external `cryptography`/`hashlib` libraries are abstract parameters
  (`AEADCipher`, a `kdf` function argument) constrained only by their
  documented behaviour; everything the repository itself implements is
  translated directly from the source.
-/

namespace Chronos

/-! ## Base64 (model of Python `base64.b64encode` / `b64decode`)

`app/core/encryption.py` produces tokens with `base64.b64encode(combined)`
and consumes them with `base64.b64decode`.  The standard alphabet with
trailing `=` padding is modelled here over byte lists.
-/

def b64Alphabet : List Char :=
  "ABCDEFGHIJKLMNOPQRSTUVWXYZabcdefghijklmnopqrstuvwxyz0123456789+/".toList

def b64Char (n : Nat) : Char :=
  b64Alphabet.getD n '='

def b64Index (c : Char) : Option Nat :=
  b64Alphabet.findIdx? (fun a => a = c)

def base64Encode : List Nat → List Char
  | [] => []
  | [b0] =>
      [b64Char (b0 / 4), b64Char (b0 % 4 * 16), '=', '=']
  | [b0, b1] =>
      [b64Char (b0 / 4), b64Char (b0 % 4 * 16 + b1 / 16), b64Char (b1 % 16 * 4), '=']
  | b0 :: b1 :: b2 :: rest =>
      b64Char (b0 / 4) :: b64Char (b0 % 4 * 16 + b1 / 16) ::
        b64Char (b1 % 16 * 4 + b2 / 64) :: b64Char (b2 % 64) :: base64Encode rest

def base64Decode : List Char → Option (List Nat)
  | [] => some []
  | c0 :: c1 :: c2 :: c3 :: rest =>
      if c3 = '=' then
        if rest.isEmpty then
          if c2 = '=' then
            match b64Index c0, b64Index c1 with
            | some n0, some n1 => some [n0 * 4 + n1 / 16]
            | _, _ => none
          else
            match b64Index c0, b64Index c1, b64Index c2 with
            | some n0, some n1, some n2 =>
                some [n0 * 4 + n1 / 16, n1 % 16 * 16 + n2 / 4]
            | _, _, _ => none
        else none
      else
        match b64Index c0, b64Index c1, b64Index c2, b64Index c3, base64Decode rest with
        | some n0, some n1, some n2, some n3, some bs =>
            some ((n0 * 4 + n1 / 16) :: (n1 % 16 * 16 + n2 / 4) :: (n2 % 4 * 64 + n3) :: bs)
        | _, _, _, _, _ => none
  | _ => none

/-! ## Crypto service (model of `app/core/encryption.py`, class `Encryption`)

The AES-GCM primitive (`cryptography.hazmat...AESGCM`) and PBKDF2
(`hashlib.pbkdf2_hmac`) are external libraries; they enter the model as an
abstract authenticated cipher and an abstract key-derivation function.
`AEADCipher.enc key iv pt aad` is the library's ciphertext-with-16-byte-tag
output; `dec` is its inverse, `none` meaning `InvalidTag`.  Randomness
(`os.urandom`) is passed in explicitly as the `salt` and `iv` arguments.
-/

structure AEADCipher where
  enc : List Nat → List Nat → List Nat → List Nat → List Nat
  dec : List Nat → List Nat → List Nat → List Nat → Option (List Nat)
  enc_length : ∀ key iv pt aad, (enc key iv pt aad).length = pt.length + 16
  enc_bytes : ∀ key iv pt aad, (∀ b ∈ pt, b < 256) → ∀ b ∈ enc key iv pt aad, b < 256
  dec_enc : ∀ key iv pt aad, (∀ b ∈ pt, b < 256) → dec key iv (enc key iv pt aad) aad = some pt

def SALT_LENGTH : Nat := 16

def IV_LENGTH : Nat := 12

def KEY_LENGTH : Nat := 32

def PBKDF2_ITERATIONS_V2 : Nat := 600000

def PBKDF2_ITERATIONS_V1 : Nat := 100000

/-- Byte value of the `AAD_PREFIX` constant `b"chronos-v1:"`. -/
def aadMagic : List Nat :=
  "chronos-v1:".toList.map Char.toNat

/-- Byte value of `VERSION_BYTE_V2`, `b'\x02'`. -/
def versionByteV2 : List Nat := [2]

/-- Model of `Encryption._derive_key(user_id, salt, iterations)`:
`pbkdf2_hmac("sha256", master_key + user_id.encode(), salt, iterations, dklen=32)`.
`kdf` abstracts `hashlib.pbkdf2_hmac` applied to sha256: arguments are key
material, salt, iteration count, and derived-key length. -/
def deriveKeyM (kdf : List Nat → List Nat → Nat → Nat → List Nat)
    (master uid salt : List Nat) (iterations : Nat) : List Nat :=
  kdf (master ++ uid) salt iterations KEY_LENGTH

/-- Model of `Encryption._build_aad(user_id)`: `AAD_PREFIX + user_id.encode()`. -/
def buildAadM (uid : List Nat) : List Nat :=
  aadMagic ++ uid

/-- The `combined` value of `Encryption.encrypt`:
`VERSION_BYTE_V2 + salt + iv + aesgcm.encrypt(iv, plaintext, aad)`. -/
def encryptCombined (C : AEADCipher) (kdf : List Nat → List Nat → Nat → Nat → List Nat)
    (master uid salt iv pt : List Nat) : List Nat :=
  versionByteV2 ++ salt ++ iv ++
    C.enc (deriveKeyM kdf master uid salt PBKDF2_ITERATIONS_V2) iv pt (buildAadM uid)

/-- Model of `Encryption.encrypt(plaintext, user_id)`; the random
`os.urandom` draws are the explicit `salt` (16 bytes) and `iv` (12 bytes)
arguments, the plaintext and the user id are given as their UTF-8 bytes. -/
def encryptM (C : AEADCipher) (kdf : List Nat → List Nat → Nat → Nat → List Nat)
    (master uid salt iv pt : List Nat) : List Char :=
  base64Encode (encryptCombined C kdf master uid salt iv pt)

/-- Python exception classes that matter to `decrypt` and its callers. -/
inductive PyExc where
  | valueError
  | invalidToken
  | unicodeDecodeError
  | typeError (message : String)
  | otherExc
deriving DecidableEq

/-- Model of `Encryption.decrypt(encrypted_data, user_id)`.  All internal
failures (bad base64, truncated data, tag mismatch, non-UTF-8 plaintext)
are caught by the source's blanket `except` and re-raised as
`ValueError("Decryption failed")`; the result is therefore either the
plaintext bytes or `PyExc.valueError`. -/
def decryptM (C : AEADCipher) (kdf : List Nat → List Nat → Nat → Nat → List Nat)
    (master uid : List Nat) (encrypted_data : List Char) : Except PyExc (List Nat) :=
  match base64Decode encrypted_data with
  | none => .error .valueError
  | some combined =>
    if combined.take 1 = versionByteV2 then
      let salt := (combined.drop 1).take SALT_LENGTH
      let iv := (combined.drop (1 + SALT_LENGTH)).take IV_LENGTH
      let ct := combined.drop (1 + SALT_LENGTH + IV_LENGTH)
      let key := deriveKeyM kdf master uid salt PBKDF2_ITERATIONS_V2
      match C.dec key iv ct (buildAadM uid) with
      | some pt => .ok pt
      | none => .error .valueError
    else
      let salt := combined.take SALT_LENGTH
      let iv := (combined.drop SALT_LENGTH).take IV_LENGTH
      let ct := combined.drop (SALT_LENGTH + IV_LENGTH)
      let key := deriveKeyM kdf master uid salt PBKDF2_ITERATIONS_V1
      match C.dec key iv ct [] with
      | some pt => .ok pt
      | none => .error .valueError

/-! A small concrete cipher and key-derivation function satisfying the
`AEADCipher` interface, used to instantiate witnesses and counterexamples
on fully concrete inputs. -/

def toyTag (key iv aad : List Nat) : List Nat :=
  List.replicate 16 ((key.sum + iv.sum + aad.sum) % 256)

def toyEnc (key iv pt aad : List Nat) : List Nat :=
  pt.map (fun b => b % 256) ++ toyTag key iv aad

def toyDec (key iv ct aad : List Nat) : Option (List Nat) :=
  if ct.drop (ct.length - 16) = toyTag key iv aad ∧ 16 ≤ ct.length then
    some (ct.take (ct.length - 16))
  else
    none

def toyCipher : AEADCipher where
  enc := toyEnc
  dec := toyDec
  enc_length := by
    intro key iv pt aad
    simp [toyEnc, toyTag]
  enc_bytes := by
    intro key iv pt aad _ b hb
    rcases List.mem_append.mp hb with hl | hr
    · rcases List.mem_map.mp hl with ⟨a, _, rfl⟩
      exact Nat.mod_lt _ (by norm_num)
    · have := List.eq_of_mem_replicate hr
      subst this
      exact Nat.mod_lt _ (by norm_num)
  dec_enc := by
    intro key iv pt aad hpt
    have hmap : ∀ l : List Nat, (∀ b ∈ l, b < 256) → l.map (fun b => b % 256) = l := by
      intro l
      induction l with
      | nil => intro _; rfl
      | cons a t ih =>
        intro hl
        simp only [List.map_cons, Nat.mod_eq_of_lt (hl a (by simp))]
        rw [ih (fun b hb => hl b (List.mem_cons_of_mem _ hb))]
    simp only [toyEnc, hmap pt hpt, toyDec]
    have hlen : (pt ++ toyTag key iv aad).length = pt.length + 16 := by
      simp [toyTag]
    rw [hlen]
    simp only [Nat.add_sub_cancel]
    rw [List.drop_left, List.take_left]
    simp

def toyKdf (material salt : List Nat) (iterations dklen : Nat) : List Nat :=
  List.replicate dklen ((material.sum + salt.sum + iterations) % 256)

/-! ## Event decryption for the frontend (model of `decrypt_event` in
`app/calendar/helpers.py`)

A stored event row is modelled with the fields that `decrypt_event`
reads.  Ciphertext fields are base64 token texts (`List Char`); opaque
JSON payloads that are only passed through (attendees, reminders, ...)
are plain `String`s; `recurrence` is a JSON array or SQL `NULL`, hence
`Option (List String)`. -/

structure StoredEventRow where
  google_event_id : Option String
  id : Option String
  summary : Option (List Char)
  description : Option (List Char)
  location : Option (List Char)
  recurrence : Option (List String)
  google_calendar_id : Option String
  start_datetime : Option String
  end_datetime : Option String
  status : Option String
  visibility : Option String
  transparency : Option String
  recurring_event_id : Option String
  color_id : Option String
  created_at : Option String
  updated_at : Option String
  attendees : Option String
  organizer : Option String
  reminders : Option String
  conference_data : Option String
  html_link : Option String
  ical_uid : Option String
  original_start_time : Option String

/-- Frontend-format record assembled by `decrypt_event` (the default
`output_format="frontend"` branch).  Decrypted plaintexts are byte lists;
`originalStartTime` is the one-key dict `{"dateTime": v}` or `{"date": v}`. -/
structure FrontendEvent where
  id : Option String
  calendarId : Option String
  startVal : String
  endVal : String
  status : String
  visibility : String
  transparency : String
  recurrence : Option (List String)
  recurringEventId : Option String
  colorId : Option String
  created : Option String
  updated : Option String
  summary : Option (List Nat)
  description : Option (List Nat)
  location : Option (List Nat)
  attendees : Option String
  organizer : Option String
  reminders : Option String
  conferenceData : Option String
  htmlLink : Option String
  iCalUID : Option String
  originalStartTime : Option (String × String)

/-- Model of `_normalize_recurrence(recurrence)`: `recurrence or None`
(the empty list is falsy). -/
def normalizeRecurrence : Option (List String) → Option (List String)
  | none => none
  | some l => if l.isEmpty then none else some l

/-- Model of `event.get("start_datetime") or {}` on an opaque JSON payload. -/
def pyOrEmptyDict : Option String → String
  | none => "{}"
  | some s => s

/-- Exception classes caught by `safe_decrypt` inside `decrypt_event`:
`(InvalidToken, ValueError, UnicodeDecodeError)`. -/
def decryptEventCaught : PyExc → Bool
  | .invalidToken => true
  | .valueError => true
  | .unicodeDecodeError => true
  | _ => false

/-- Model of the inner `safe_decrypt(value, field_name, fallback)` of
`decrypt_event`: falsy values yield the fallback, a caught decryption
failure yields the fallback, any other exception propagates. -/
def safeDecrypt (C : AEADCipher) (kdf : List Nat → List Nat → Nat → Nat → List Nat)
    (master uid : List Nat) (value : Option (List Char)) (fallback : Option (List Nat)) :
    Except PyExc (Option (List Nat)) :=
  match value with
  | none => .ok fallback
  | some tok =>
    if tok.isEmpty then .ok fallback
    else
      match decryptM C kdf master uid tok with
      | .ok pt => .ok (some pt)
      | .error e => if decryptEventCaught e then .ok fallback else .error e

/-- Model of `decrypt_event(event, user_id)` in its default
`output_format="frontend"` branch. -/
def decryptEventFrontend (C : AEADCipher)
    (kdf : List Nat → List Nat → Nat → Nat → List Nat) (master uid : List Nat)
    (e : StoredEventRow) : Except PyExc FrontendEvent := do
  let summary ← safeDecrypt C kdf master uid e.summary (some [])
  let description ← safeDecrypt C kdf master uid e.description none
  let location ← safeDecrypt C kdf master uid e.location none
  .ok
    { id := e.google_event_id
      calendarId := e.google_calendar_id
      startVal := pyOrEmptyDict e.start_datetime
      endVal := pyOrEmptyDict e.end_datetime
      status := e.status.getD "confirmed"
      visibility := e.visibility.getD "default"
      transparency := e.transparency.getD "opaque"
      recurrence := normalizeRecurrence e.recurrence
      recurringEventId := e.recurring_event_id
      colorId := e.color_id
      created := e.created_at
      updated := e.updated_at
      summary := summary
      description := description
      location := location
      attendees := e.attendees
      organizer := e.organizer
      reminders := e.reminders
      conferenceData := e.conference_data
      htmlLink := e.html_link
      iCalUID := e.ical_uid
      originalStartTime :=
        match e.original_start_time with
        | none => none
        | some s =>
          if s.isEmpty then none
          else if s.toList.contains 'T' then some ("dateTime", s)
          else some ("date", s) }

/-! ## Error taxonomy and HTTP classification (model of `GoogleAPIError`,
`handle_google_response` in `app/calendar/gcal.py`, and the exception
handlers of `with_retry` in `app/calendar/helpers.py`) -/

/-- Model of the `GoogleAPIError` exception: status code, message, and the
`retryable` flag (defaulting to `False` in the source constructor). -/
structure GErr where
  status : Nat
  message : String
  retryable : Bool
deriving DecidableEq

/-- The `GoogleCalendarConfig.QUOTA_ERROR_REASONS` frozenset. -/
def QUOTA_ERROR_REASONS : List String :=
  ["userRateLimitExceeded", "rateLimitExceeded", "quotaExceeded"]

def MAX_RETRIES : Nat := 5

def BASE_DELAY_SECONDS : ℚ := 1

def MAX_CONCURRENT_PER_ACCOUNT : Nat := 3

/-- Model of `handle_google_response(response)`: a response is its HTTP
status plus the error reason that `extract_error_reason` reads from the
body (`""` when absent); the parsed body is irrelevant to classification
and represented by `Unit`. -/
def handleGoogleResponse (status : Nat) (reason : String) : Except GErr Unit :=
  if 200 ≤ status ∧ status < 300 then .ok ()
  else if status = 401 then .error ⟨401, "Token expired or revoked", false⟩
  else if status = 403 then
    if QUOTA_ERROR_REASONS.contains reason then
      .error ⟨403, "Quota exceeded: " ++ reason, true⟩
    else .error ⟨403, "Access forbidden", false⟩
  else if status = 429 then .error ⟨429, "Rate limited", true⟩
  else if status = 410 then .error ⟨410, "Sync token expired", false⟩
  else if 500 ≤ status then .error ⟨status, "Google server error", true⟩
  else .error ⟨status, "Request failed", false⟩

/-! ## Retry controller (model of `with_retry` in `app/calendar/helpers.py`)

One call of the wrapped coroutine is an `Outcome`: a success value, a
raised `GoogleAPIError`, an `httpx.TimeoutException`, an
`httpx.NetworkError`, or any other exception (which `with_retry` does not
catch).  The random `random.uniform(0.5, 1.5)` draw of attempt `i` is the
explicit `jitter i` argument. -/

inductive Outcome (α : Type) where
  | ok (v : α)
  | apiErr (e : GErr)
  | timeoutExc
  | networkExc
  | otherExc

/-- Result of `with_retry` together with its observable trace: how many
times the coroutine function ran and which backoff delays were slept. -/
inductive RetryResult (α : Type) where
  | success (v : α) (calls : Nat) (delays : List ℚ)
  | raised (e : GErr) (calls : Nat) (delays : List ℚ)
  | propagated (calls : Nat) (delays : List ℚ)
deriving DecidableEq

/-- The backoff delay slept after failed attempt `i` (0-indexed):
`BASE_DELAY_SECONDS * (2 ** attempt) * random.uniform(0.5, 1.5)`. -/
def retryDelay (jitter : Nat → ℚ) (i : Nat) : ℚ :=
  BASE_DELAY_SECONDS * 2 ^ i * jitter i

/-- The `GoogleAPIError` recorded as `last_error` for a caught failed
attempt (`e` itself, or the 504/503 errors built for the httpx transport
exceptions). -/
def caughtErr {α : Type} : Outcome α → GErr
  | .apiErr e => e
  | .timeoutExc => ⟨504, "Request timed out", true⟩
  | .networkExc => ⟨503, "Network error", true⟩
  | _ => ⟨0, "", false⟩

/-- Whether an attempt outcome is caught by the loop and retried. -/
def caughtRetryable {α : Type} : Outcome α → Bool
  | .apiErr e => e.retryable
  | .timeoutExc => true
  | .networkExc => true
  | _ => false

/-- The body of the `for attempt in range(MAX_RETRIES)` loop, with
`fuel = MAX_RETRIES - attempt` remaining iterations and the accumulated
call count and slept delays. -/
def withRetryGo {α : Type} (outcomes : Nat → Outcome α) (jitter : Nat → ℚ) :
    Nat → Nat → Nat → List ℚ → GErr → RetryResult α
  | 0, _, calls, delays, lastErr => .raised lastErr calls delays
  | fuel + 1, attempt, calls, delays, _lastErr =>
    match outcomes attempt with
    | .ok v => .success v (calls + 1) delays
    | .apiErr e =>
      if e.retryable then
        withRetryGo outcomes jitter fuel (attempt + 1) (calls + 1)
          (delays ++ [retryDelay jitter attempt]) e
      else .raised e (calls + 1) delays
    | .timeoutExc =>
      withRetryGo outcomes jitter fuel (attempt + 1) (calls + 1)
        (delays ++ [retryDelay jitter attempt]) ⟨504, "Request timed out", true⟩
    | .networkExc =>
      withRetryGo outcomes jitter fuel (attempt + 1) (calls + 1)
        (delays ++ [retryDelay jitter attempt]) ⟨503, "Network error", true⟩
    | .otherExc => .propagated (calls + 1) delays

/-- Model of `with_retry(coro_func, google_account_id)`.  The semaphore
acquisition around the loop does not affect the retry behaviour and is
omitted; `last_error` starts as `GoogleAPIError(500, "No retries
configured")`. -/
def withRetryM {α : Type} (outcomes : Nat → Outcome α) (jitter : Nat → ℚ) : RetryResult α :=
  withRetryGo outcomes jitter MAX_RETRIES 0 0 [] ⟨500, "No retries configured", false⟩

def RetryResult.callCount {α : Type} : RetryResult α → Nat
  | .success _ c _ => c
  | .raised _ c _ => c
  | .propagated c _ => c

def RetryResult.delaysOf {α : Type} : RetryResult α → List ℚ
  | .success _ _ d => d
  | .raised _ _ d => d
  | .propagated _ d => d

/-! ## Python truthiness of optional strings -/

/-- Truthiness of a nullable Python string: `None` and `""` are falsy. -/
def truthyStr : Option String → Bool
  | none => false
  | some s => !s.isEmpty

/-- The `x or ""` idiom applied to a nullable string (`sync_token or ""`). -/
def pyOrEmptyStr : Option String → String
  | none => ""
  | some s => s

/-! ## Token manager (model of `get_valid_access_token` in
`app/calendar/gcal.py` and `token_needs_refresh` in
`app/calendar/helpers.py`)

Instants are seconds as integers; `TOKEN_REFRESH_BUFFER` is 5 minutes.
The double-checked locking is modelled by the two sequential reads of the
token row (`t1` outside the lock at time `now1`, `t2` inside it at time
`now2`); side effects are collected in an ordered list. -/

def TOKEN_REFRESH_BUFFER : Int := 300

structure TokensRow where
  access_token : String
  refresh_token : Option String
  expires_at : Int

/-- Model of `token_needs_refresh(expires_at)`:
`expires_at < datetime.now(timezone.utc) + TOKEN_REFRESH_BUFFER`. -/
def tokenNeedsRefresh (expires_at now : Int) : Bool :=
  expires_at < now + TOKEN_REFRESH_BUFFER

inductive TokenStep where
  | markReauth
  | oauthCall
  | persistTokens
deriving DecidableEq

/-- Model of `refresh_access_token(...)`: one OAuth POST; a non-200
response marks the account needs-reauth and raises
`GoogleAPIError(401, "Failed to refresh token")`; a 200 response persists
the re-encrypted tokens and returns the new access token. -/
def refreshAccessTokenM (oauthStatus : Nat) (oauthAccessToken : String) :
    Except GErr String × List TokenStep :=
  if oauthStatus ≠ 200 then
    (.error ⟨401, "Failed to refresh token", false⟩, [.oauthCall, .markReauth])
  else
    (.ok oauthAccessToken, [.oauthCall, .persistTokens])

/-- Model of `get_valid_access_token(http, supabase, user_id,
google_account_id)`.  `t1`/`now1` are the tokens and clock of the read
before the refresh lock, `t2`/`now2` of the double-checked read inside
it; `oauthStatus`/`oauthAccessToken` describe Google's answer to a
refresh POST if one is made. -/
def getValidAccessTokenM (t1 : TokensRow) (now1 : Int) (t2 : TokensRow) (now2 : Int)
    (oauthStatus : Nat) (oauthAccessToken : String) :
    Except GErr String × List TokenStep :=
  if !tokenNeedsRefresh t1.expires_at now1 then
    (.ok t1.access_token, [])
  else
    if tokenNeedsRefresh t2.expires_at now2 then
      if !truthyStr t2.refresh_token then
        (.error ⟨401, "Missing refresh token", false⟩, [.markReauth])
      else
        refreshAccessTokenM oauthStatus oauthAccessToken
    else
      (.ok t2.access_token, [])

/-! ## Store gateway queries (model of `query_events` and
`update_calendar_sync_state` in `app/calendar/db.py`)

The `events` table is a list of rows; the three supabase queries are
list filters over it.  `recurrence` is `NULL` or a JSON array,
`recurring_event_id` is `NULL` or a string. -/

structure EventRow where
  google_calendar_id : String
  google_event_id : String
  source : String
  recurrence : Option (List String)
  recurring_event_id : Option String
  status : String
deriving DecidableEq

/-- Model of `query_events(supabase, calendar_ids)`: the three queries
over the `events` table, in source order (single events, recurring
masters, exceptions). -/
def queryEvents (table : List EventRow) (calendar_ids : List String) :
    List EventRow × List EventRow × List EventRow :=
  ( table.filter fun e =>
      calendar_ids.contains e.google_calendar_id && e.source == "google"
        && e.recurrence == none && !(e.status == "cancelled")
  , table.filter fun e =>
      calendar_ids.contains e.google_calendar_id && e.source == "google"
        && !(e.recurrence == none) && e.recurring_event_id == none
        && !(e.status == "cancelled")
  , table.filter fun e =>
      calendar_ids.contains e.google_calendar_id && e.source == "google"
        && !(e.recurring_event_id == none) )

/-- Column values of a `calendar_sync_state` upsert payload. -/
inductive DbVal where
  | str (s : String)
  | null
  | num (n : Nat)
  | boolean (b : Bool)
deriving DecidableEq

/-- Model of the `data` dict built by `update_calendar_sync_state(...)`:
the required keys are always present (`next_page_token` is set to the
`page_token` argument, `NULL` when it is `None`); the optional metrics
keys are added only when not `None`. -/
def updateCalendarSyncStateData (calendar_id sync_token : String)
    (page_token : Option String) (pages_fetched items_upserted sync_duration_ms : Option Nat)
    (full_sync_complete : Option Bool) (now_iso : String) : List (String × DbVal) :=
  [("google_calendar_id", .str calendar_id),
   ("sync_token", .str sync_token),
   ("next_page_token", match page_token with | some s => .str s | none => .null),
   ("last_sync_at", .str now_iso)]
  ++ (match pages_fetched with | some n => [("pages_fetched", DbVal.num n)] | none => [])
  ++ (match items_upserted with | some n => [("items_upserted", DbVal.num n)] | none => [])
  ++ (match sync_duration_ms with | some n => [("sync_duration_ms", DbVal.num n)] | none => [])
  ++ (match full_sync_complete with
      | some b => [("full_sync_complete", DbVal.boolean b)] | none => [])

/-! ## Google events pagination (model of `get_events` in
`app/calendar/gcal.py`) and its call sites

`get_events` is an async generator.  Its declared parameters and the
keyword arguments used at its call sites in
`app/routers/calendar.py::_fetch_and_sync_calendar` and
`app/calendar/sync.py::_sync_calendar` are recorded verbatim; binding a
keyword argument that names no declared parameter of a plain `async def`
raises `TypeError` before the body runs. -/

/-- The parameters declared by `async def get_events(...)` at
`gcal.py:184`. -/
def getEventsParamNames : List String :=
  ["http", "supabase", "user_id", "google_account_id", "google_calendar_id",
   "google_calendar_external_id", "sync_token", "calendar_color"]

/-- The keyword arguments passed to `get_events` by
`_fetch_and_sync_calendar` (`routers/calendar.py:129-139`) and by
`_sync_calendar` (`calendar/sync.py:78-88`); the first six arguments are
positional. -/
def syncEngineGetEventsKeywords : List String :=
  ["sync_token", "calendar_color", "page_token"]

/-- Whether Python accepts the keyword arguments for a function declared
with exactly the given parameters (no `**kwargs`). -/
def pythonKeywordsAccepted (params kwargs : List String) : Bool :=
  kwargs.all params.contains

/-- The `sync_token=` argument that the sync engine computes:
`sync_token if not page_token else None`. -/
def engineSyncTokenArg (sync_token page_token : Option String) : Option String :=
  if !truthyStr page_token then sync_token else none

/-- The query-string parameters that the body of `get_events` builds for
one page request from its local `page_token` and its `sync_token`
argument (`gcal.py:198-202`): `pageToken` if the local page token is
truthy, else `syncToken` if truthy, else neither. -/
def gcalRequestParams (page_token sync_token : Option String) : List (String × String) :=
  [("singleEvents", "false"), ("showDeleted", "true"), ("maxResults", "250")]
  ++ (if truthyStr page_token then [("pageToken", pyOrEmptyStr page_token)]
      else if truthyStr sync_token then [("syncToken", pyOrEmptyStr sync_token)]
      else [])

/-- One wire response of the Google events endpoint, already reduced to
what `get_events` consumes: the transformed-and-sorted events of
`items`, `nextPageToken` and `nextSyncToken`.  Event payloads are an
abstract type. -/
structure WireResponse (Ev : Type) where
  events : List Ev
  nextPageToken : Option String
  nextSyncToken : Option String

/-- One item yielded by the `get_events` generator, as read by the sync
engine: the engine calls `page.get("next_page_token")` on events pages,
so the model records that dict entry explicitly (`none` when the key is
absent). -/
inductive Page (Ev : Type) where
  | events (events : List Ev) (next_page_token : Option String)
  | syncToken (token : String)

/-- The pages yielded by the body of `get_events` (`gcal.py:197-234`)
for a run whose successive HTTP responses are `ws`.  The events-page
dict literal at `gcal.py:226` is `{"type": "events", "events":
sorted_events}` — it carries no `next_page_token` key. -/
def gcalPages {Ev : Type} : List (WireResponse Ev) → List (Page Ev)
  | [] => []
  | w :: ws =>
    Page.events w.events none ::
      (if truthyStr w.nextPageToken then gcalPages ws
       else if truthyStr w.nextSyncToken then [Page.syncToken (pyOrEmptyStr w.nextSyncToken)]
       else [])

/-! ## Sync engine (model of `_fetch_and_sync_calendar` in
`app/routers/calendar.py`)

The generator's observable behaviour in one `while True` iteration is a
`GenResult`: the pages it yielded before either finishing normally
(`interrupt = none`) or raising a `GoogleAPIError`.  Each spawned upsert
task's eventual success is given by `taskFails` (indexed in spawn
order).  Store writes and queue records are collected in order. -/

structure GenResult (Ev : Type) where
  pages : List (Page Ev)
  interrupt : Option GErr

inductive QRec (Ev : Type) where
  | events (calendar_id : String) (events : List Ev)
  | syncTok (calendar_id : String) (token : String)
  | error (calendar_id code message : String) (retryable : Bool)
  | done (calendar_id : String)
deriving DecidableEq

inductive DbCall where
  | updateSyncState (calendar_id sync_token : String) (page_token : Option String)
  | clearSyncState (calendar_id : String)
deriving DecidableEq

structure PassOut (Ev : Type) where
  db : List DbCall
  queue : List (QRec Ev)
  err : Option GErr
  currentPT : Option String

/-- One pass of the `async for page in get_events(...)` loop
(`routers/calendar.py:126-171`): events pages update
`current_page_token`, spawn an upsert task when non-empty and emit an
`events` record; the `sync_token` page awaits the spawned tasks, emits a
retryable persist-error record if any failed, persists the sync token
(with the `page_token` parameter left at its default `None`) and emits
the `sync_token` record. -/
def runPass {Ev Ev' : Type} (cid : String) (decFn : Ev → Ev') (taskFails : Nat → Bool) :
    List (Page Ev) → Option GErr → List Bool → Option String → PassOut Ev'
  | [], interrupt, _, cpt => ⟨[], [], interrupt, cpt⟩
  | Page.events evs npt :: rest, interrupt, tasks, _ =>
    let tasks' := if evs.isEmpty then tasks else tasks ++ [taskFails tasks.length]
    let out := runPass cid decFn taskFails rest interrupt tasks' npt
    { out with queue := QRec.events cid (evs.map decFn) :: out.queue }
  | Page.syncToken tok :: rest, interrupt, tasks, cpt =>
    let failed := tasks.any id
    let out := runPass cid decFn taskFails rest interrupt tasks cpt
    { out with
      db := DbCall.updateSyncState cid tok none :: out.db
      queue :=
        (if failed then [QRec.error cid "500" "Failed to persist some events" true] else [])
          ++ QRec.syncTok cid tok :: out.queue }

/-- The terminal-error branch (`routers/calendar.py:191-202`): persist
the current page token if one is set, then emit the error record. -/
def terminalExit {Ev : Type} (cid : String) (syncTokNow : Option String)
    (cpt : Option String) (e : GErr) : List DbCall × List (QRec Ev) :=
  ( if truthyStr cpt then [DbCall.updateSyncState cid (pyOrEmptyStr syncTokNow) cpt] else []
  , [QRec.error cid (toString e.status) e.message e.retryable] )

/-- Dispatch on the outcome of the first pass of the `while True` loop
of `_fetch_and_sync_calendar` (`routers/calendar.py:125-203`): a clean
first pass emits `calendar_done`; a 410 clears the sync state and the
loop runs once more as a full sync; any other error while resuming from
a saved page token drops the page token and the loop runs once more;
any remaining error takes the terminal branch.  `r2` is the outcome of
the second pass where one happens (every retry path sets
`is_retry = True`, so there is no third pass). -/
def fetchAndSyncCont {Ev' : Type} (cid : String) (st0 pt0 : Option String)
    (r1 r2 : PassOut Ev') : List DbCall × List (QRec Ev') :=
  match r1.err with
  | none => (r1.db, r1.queue ++ [QRec.done cid])
  | some e =>
    if e.status = 410 then
      match r2.err with
      | none =>
        (r1.db ++ [DbCall.clearSyncState cid] ++ r2.db,
         r1.queue ++ r2.queue ++ [QRec.done cid])
      | some e2 =>
        let t := terminalExit cid none r2.currentPT e2
        (r1.db ++ [DbCall.clearSyncState cid] ++ r2.db ++ t.1,
         r1.queue ++ r2.queue ++ t.2 ++ [QRec.done cid])
    else if truthyStr pt0 then
      match r2.err with
      | none => (r1.db ++ r2.db, r1.queue ++ r2.queue ++ [QRec.done cid])
      | some e2 =>
        let t := terminalExit cid st0 r2.currentPT e2
        (r1.db ++ r2.db ++ t.1, r1.queue ++ r2.queue ++ t.2 ++ [QRec.done cid])
    else
      let t := terminalExit cid st0 r1.currentPT e
      (r1.db ++ t.1, r1.queue ++ t.2 ++ [QRec.done cid])

/-- Model of `_fetch_and_sync_calendar` after the calendar and sync
state have been read: `st0`/`pt0` are the saved `sync_token` and
`next_page_token`; `run1` is the first generator pass, `run2` the
second one when the loop continues.  Returns the store calls and the
emitted queue records, in order. -/
def fetchAndSync {Ev Ev' : Type} (cid : String) (decFn : Ev → Ev')
    (st0 pt0 : Option String) (run1 run2 : GenResult Ev) (tf1 tf2 : Nat → Bool) :
    List DbCall × List (QRec Ev') :=
  fetchAndSyncCont cid st0 pt0
    (runPass cid decFn tf1 run1.pages run1.interrupt [] none)
    (runPass cid decFn tf2 run2.pages run2.interrupt [] none)

/-- The upsert-task failure flags accumulated over a page list (the
`upsert_tasks` list at the point the pages have been consumed). -/
def spawnFlags {Ev : Type} (taskFails : Nat → Bool) : List (Page Ev) → List Bool → List Bool
  | [], tasks => tasks
  | Page.events evs _ :: rest, tasks =>
    spawnFlags taskFails rest (if evs.isEmpty then tasks else tasks ++ [taskFails tasks.length])
  | Page.syncToken _ :: rest, tasks => spawnFlags taskFails rest tasks

/-- Whether a store call is an `update_calendar_sync_state` carrying a
non-`NULL` page token. -/
def dbCallHasPageToken : DbCall → Bool
  | DbCall.updateSyncState _ _ (some _) => true
  | _ => false

/-- Whether a page is an events page carrying a `next_page_token` entry. -/
def pageHasNextPageToken {Ev : Type} : Page Ev → Bool
  | Page.events _ (some _) => true
  | _ => false

/-! ## Concrete instances used by witnesses and counterexamples -/

def cexMaster : List Nat := [1, 2, 3]

def cexUid : List Nat := [9, 10]

def cexSalt : List Nat := List.replicate 16 5

def cexSalt2 : List Nat := List.replicate 16 6

def cexIv : List Nat := List.replicate 12 7

/-- A non-cancelled exception row: `recurrence` is `NULL` and
`recurring_event_id` is set, as Google delivers recurring-event
exceptions. -/
def overlapRow : EventRow :=
  ⟨"c1", "e1", "google", none, some "m1", "confirmed"⟩

/-- A recurring-master row. -/
def masterRow : EventRow :=
  ⟨"c1", "e2", "google", some ["RRULE:FREQ=DAILY"], none, "confirmed"⟩

/-- A stored event row whose ciphertext fields are not valid base64. -/
def cexRow : StoredEventRow where
  google_event_id := some "e1"
  id := none
  summary := some ['!']
  description := some ['!']
  location := some ['!']
  recurrence := some []
  google_calendar_id := some "c1"
  start_datetime := none
  end_datetime := none
  status := none
  visibility := none
  transparency := none
  recurring_event_id := none
  color_id := some "#fff"
  created_at := none
  updated_at := none
  attendees := none
  organizer := none
  reminders := none
  conference_data := none
  html_link := none
  ical_uid := none
  original_start_time := some "2025-06-15T10:00:00Z"

/-! ## Theorems -/

theorem b64Index_b64Char : ∀ n : Nat, n < 64 → b64Index (b64Char n) = some n := by
  decide

theorem b64Char_ne_eq : ∀ n : Nat, n < 64 → (b64Char n = '=') = False := by
  decide

theorem base64_decode_encode :
    ∀ bs : List Nat, (∀ b ∈ bs, b < 256) → base64Decode (base64Encode bs) = some bs
  | [], _ => by simp [base64Encode, base64Decode]
  | [b0], h => by
    have hb0 : b0 < 256 := h b0 (by simp)
    have h0 : b0 / 4 < 64 := by omega
    have h1 : b0 % 4 * 16 < 64 := by omega
    simp only [base64Encode, base64Decode, List.isEmpty_nil, if_true,
      b64Index_b64Char _ h0, b64Index_b64Char _ h1]
    simp only [Option.some.injEq, List.cons.injEq, and_true]
    omega
  | [b0, b1], h => by
    have hb0 : b0 < 256 := h b0 (by simp)
    have hb1 : b1 < 256 := h b1 (by simp)
    have h0 : b0 / 4 < 64 := by omega
    have h1 : b0 % 4 * 16 + b1 / 16 < 64 := by omega
    have h2 : b1 % 16 * 4 < 64 := by omega
    simp only [base64Encode, base64Decode, List.isEmpty_nil, if_true,
      b64Index_b64Char _ h0, b64Index_b64Char _ h1, b64Index_b64Char _ h2,
      b64Char_ne_eq _ h2, if_false]
    simp only [Option.some.injEq, List.cons.injEq, and_true]
    omega
  | b0 :: b1 :: b2 :: r0 :: rest, h => by
    have hb0 : b0 < 256 := h b0 (by simp)
    have hb1 : b1 < 256 := h b1 (by simp)
    have hb2 : b2 < 256 := h b2 (by simp)
    have h0 : b0 / 4 < 64 := by omega
    have h1 : b0 % 4 * 16 + b1 / 16 < 64 := by omega
    have h2 : b1 % 16 * 4 + b2 / 64 < 64 := by omega
    have h3 : b2 % 64 < 64 := by omega
    have ih : base64Decode (base64Encode (r0 :: rest)) = some (r0 :: rest) :=
      base64_decode_encode (r0 :: rest)
        (fun b hb =>
          h b (List.mem_cons_of_mem _ (List.mem_cons_of_mem _ (List.mem_cons_of_mem _ hb))))
    simp only [base64Encode, base64Decode, b64Char_ne_eq _ h3, if_false,
      b64Index_b64Char _ h0, b64Index_b64Char _ h1, b64Index_b64Char _ h2,
      b64Index_b64Char _ h3, ih]
    simp only [Option.some.injEq, List.cons.injEq, and_true, and_self, eq_self_iff_true]
    omega
  | [b0, b1, b2], h => by
    have hb0 : b0 < 256 := h b0 (by simp)
    have hb1 : b1 < 256 := h b1 (by simp)
    have hb2 : b2 < 256 := h b2 (by simp)
    have h0 : b0 / 4 < 64 := by omega
    have h1 : b0 % 4 * 16 + b1 / 16 < 64 := by omega
    have h2 : b1 % 16 * 4 + b2 / 64 < 64 := by omega
    have h3 : b2 % 64 < 64 := by omega
    simp only [base64Encode, base64Decode, b64Char_ne_eq _ h3, if_false,
      b64Index_b64Char _ h0, b64Index_b64Char _ h1, b64Index_b64Char _ h2,
      b64Index_b64Char _ h3]
    simp only [Option.some.injEq, List.cons.injEq, and_true]
    omega

theorem toyTag_length (key iv aad : List Nat) : (toyTag key iv aad).length = 16 := by
  simp [toyTag]

theorem map_mod_256_eq :
    ∀ l : List Nat, (∀ b ∈ l, b < 256) → l.map (fun b => b % 256) = l
  | [], _ => rfl
  | a :: t, h => by
    have ha : a < 256 := h a (by simp)
    have ih := map_mod_256_eq t (fun b hb => h b (List.mem_cons_of_mem _ hb))
    simp only [List.map_cons, Nat.mod_eq_of_lt ha, ih]

theorem encryptCombined_bytes (C : AEADCipher)
    (kdf : List Nat → List Nat → Nat → Nat → List Nat) (master uid salt iv pt : List Nat)
    (hsaltb : ∀ b ∈ salt, b < 256) (hivb : ∀ b ∈ iv, b < 256)
    (hptb : ∀ b ∈ pt, b < 256) :
    ∀ b ∈ encryptCombined C kdf master uid salt iv pt, b < 256 := by
  intro b hb
  unfold encryptCombined versionByteV2 at hb
  rcases List.mem_append.mp hb with h3 | hct
  · rcases List.mem_append.mp h3 with h2 | hiv
    · rcases List.mem_append.mp h2 with h1 | hsalt
      · simp only [List.mem_singleton] at h1
        omega
      · exact hsaltb b hsalt
    · exact hivb b hiv
  · exact C.enc_bytes _ _ _ _ hptb b hct

theorem encryptCombined_slices (C : AEADCipher)
    (kdf : List Nat → List Nat → Nat → Nat → List Nat) (master uid salt iv pt : List Nat)
    (hsalt : salt.length = SALT_LENGTH) (hiv : iv.length = IV_LENGTH) :
    (encryptCombined C kdf master uid salt iv pt).take 1 = versionByteV2
    ∧ ((encryptCombined C kdf master uid salt iv pt).drop 1).take SALT_LENGTH = salt
    ∧ ((encryptCombined C kdf master uid salt iv pt).drop (1 + SALT_LENGTH)).take IV_LENGTH = iv
    ∧ (encryptCombined C kdf master uid salt iv pt).drop (1 + SALT_LENGTH + IV_LENGTH)
        = C.enc (deriveKeyM kdf master uid salt PBKDF2_ITERATIONS_V2) iv pt (buildAadM uid) := by
  unfold encryptCombined SALT_LENGTH IV_LENGTH at *
  refine ⟨?_, ?_, ?_, ?_⟩
  · rw [List.append_assoc, List.append_assoc]
    exact @List.take_left' _ versionByteV2 _ 1 (by simp [versionByteV2])
  · rw [List.append_assoc, List.append_assoc,
      @List.drop_left' _ versionByteV2 _ 1 (by simp [versionByteV2]),
      List.take_left' hsalt]
  · have hvs : (versionByteV2 ++ salt).length = 1 + 16 := by
      simp [versionByteV2, hsalt]
    rw [List.append_assoc (versionByteV2 ++ salt),
      @List.drop_left' _ (versionByteV2 ++ salt) _ (1 + 16) hvs, List.take_left' hiv]
  · have hvsi : (versionByteV2 ++ salt ++ iv).length = 1 + 16 + 12 := by
      simp [versionByteV2, hsalt, hiv]
    rw [@List.drop_left' _ (versionByteV2 ++ salt ++ iv) _ (1 + 16 + 12) hvsi]

theorem decryptM_encryptM (C : AEADCipher)
    (kdf : List Nat → List Nat → Nat → Nat → List Nat) (master uid salt iv pt : List Nat)
    (hsalt : salt.length = SALT_LENGTH) (hiv : iv.length = IV_LENGTH)
    (hsaltb : ∀ b ∈ salt, b < 256) (hivb : ∀ b ∈ iv, b < 256)
    (hptb : ∀ b ∈ pt, b < 256) :
    decryptM C kdf master uid (encryptM C kdf master uid salt iv pt) = .ok pt := by
  obtain ⟨hver, hs, hi, hc⟩ := encryptCombined_slices C kdf master uid salt iv pt hsalt hiv
  unfold encryptM decryptM
  rw [base64_decode_encode _ (encryptCombined_bytes C kdf master uid salt iv pt hsaltb hivb hptb)]
  simp only [hver, if_true, hs, hi, hc]
  rw [C.dec_enc _ _ _ _ hptb]

theorem decryptM_error_valueError (C : AEADCipher)
    (kdf : List Nat → List Nat → Nat → Nat → List Nat) (master uid : List Nat)
    (tok : List Char) (ex : PyExc) :
    decryptM C kdf master uid tok = .error ex → ex = .valueError := by
  unfold decryptM
  intro h
  split at h
  · cases h
    rfl
  · split at h
    all_goals
      dsimp only at h
      split at h
    · cases h
    · cases h
      rfl
    · cases h
    · cases h
      rfl

theorem safeDecrypt_spec (C : AEADCipher)
    (kdf : List Nat → List Nat → Nat → Nat → List Nat) (master uid : List Nat)
    (value : Option (List Char)) (fallback : Option (List Nat)) :
    ∃ v, safeDecrypt C kdf master uid value fallback = .ok v
      ∧ (∀ tok ex, value = some tok → tok ≠ [] →
          decryptM C kdf master uid tok = .error ex → v = fallback) := by
  cases value with
  | none =>
    exact ⟨fallback, rfl, fun tok ex h => by cases h⟩
  | some tok =>
    by_cases he : tok.isEmpty
    · refine ⟨fallback, ?_, ?_⟩
      · simp only [safeDecrypt, if_pos he]
      · intro tok' ex h1 h2 _
        cases h1
        cases tok with
        | nil => exact absurd rfl h2
        | cons a t => simp at he
    · cases hd : decryptM C kdf master uid tok with
      | ok pt =>
        refine ⟨some pt, ?_, ?_⟩
        · simp only [safeDecrypt, if_neg he, hd]
        · intro tok' ex h1 _ h3
          cases h1
          rw [hd] at h3
          cases h3
      | error e =>
        have hv := decryptM_error_valueError C kdf master uid tok e hd
        subst hv
        refine ⟨fallback, ?_, fun _ _ _ _ _ => rfl⟩
        simp [safeDecrypt, if_neg he, hd, decryptEventCaught]

theorem withRetryGo_calls_le {α : Type} (outcomes : Nat → Outcome α) (jitter : Nat → ℚ) :
    ∀ fuel attempt calls delays last,
      (withRetryGo outcomes jitter fuel attempt calls delays last).callCount ≤ calls + fuel
  | 0, _, calls, delays, last => by
    simp [withRetryGo, RetryResult.callCount]
  | fuel + 1, attempt, calls, delays, last => by
    have hrec := fun last2 => withRetryGo_calls_le outcomes jitter fuel (attempt + 1)
      (calls + 1) (delays ++ [retryDelay jitter attempt]) last2
    rcases h : outcomes attempt with v | e | _ | _ | _
    · simp only [withRetryGo, h, RetryResult.callCount]
      omega
    · by_cases hr : e.retryable
      · simp only [withRetryGo, h, if_pos hr]
        have := hrec e
        omega
      · simp only [withRetryGo, h, if_neg hr, RetryResult.callCount]
        omega
    · simp only [withRetryGo, h]
      have := hrec ⟨504, "Request timed out", true⟩
      omega
    · simp only [withRetryGo, h]
      have := hrec ⟨503, "Network error", true⟩
      omega
    · simp only [withRetryGo, h, RetryResult.callCount]
      omega

/-- Claim C6: mapping HTTP responses to the error taxonomy.  For every
non-2xx response, `handle_google_response` raises a `GoogleAPIError`
carrying the original status whose `retryable` flag is set exactly for
status 429, status ≥ 500, and status 403 with an error reason in
{userRateLimitExceeded, rateLimitExceeded, quotaExceeded}; hence 401,
403 with any other reason, 410 (sync-token expired) and every other 4xx
status are non-retryable.  Network timeouts and connect/read failures
are classified retryable (504/503) by the `with_retry` handlers. -/
theorem google_response_classification :
    (∀ status reason, ¬(200 ≤ status ∧ status < 300) →
      ∃ e, handleGoogleResponse status reason = .error e
        ∧ e.status = status
        ∧ (e.retryable = true ↔
            (status = 429 ∨ 500 ≤ status
              ∨ (status = 403 ∧ QUOTA_ERROR_REASONS.contains reason = true))))
    ∧ caughtErr (Outcome.timeoutExc : Outcome Unit) = ⟨504, "Request timed out", true⟩
    ∧ caughtErr (Outcome.networkExc : Outcome Unit) = ⟨503, "Network error", true⟩
    ∧ caughtRetryable (Outcome.timeoutExc : Outcome Unit) = true
    ∧ caughtRetryable (Outcome.networkExc : Outcome Unit) = true := by
  refine ⟨?_, rfl, rfl, rfl, rfl⟩
  intro status reason h
  unfold handleGoogleResponse
  split_ifs with h401 h403 hq h429 h410 h500
  · refine ⟨_, rfl, by rw [h401], ?_⟩
    constructor
    · intro hfalse
      simp at hfalse
    · rintro (h' | h' | ⟨h', _⟩) <;> omega
  · refine ⟨_, rfl, by rw [h403], ?_⟩
    constructor
    · intro _
      exact Or.inr (Or.inr ⟨h403, hq⟩)
    · intro _
      rfl
  · refine ⟨_, rfl, by rw [h403], ?_⟩
    constructor
    · intro hfalse
      simp at hfalse
    · rintro (h' | h' | ⟨h', hq'⟩)
      · omega
      · omega
      · exact absurd hq' hq
  · refine ⟨_, rfl, by rw [h429], ?_⟩
    constructor
    · intro _
      exact Or.inl h429
    · intro _
      rfl
  · refine ⟨_, rfl, by rw [h410], ?_⟩
    constructor
    · intro hfalse
      simp at hfalse
    · rintro (h' | h' | ⟨h', _⟩) <;> omega
  · refine ⟨_, rfl, rfl, ?_⟩
    constructor
    · intro _
      exact Or.inr (Or.inl h500)
    · intro _
      rfl
  · refine ⟨_, rfl, rfl, ?_⟩
    constructor
    · intro hfalse
      simp at hfalse
    · rintro (h' | h' | ⟨h', _⟩) <;> omega

/-- Witness for C6: a 429 response is classified retryable, a 410
response is not. -/
theorem google_response_classification_witness :
    handleGoogleResponse 429 "" = .error ⟨429, "Rate limited", true⟩
    ∧ handleGoogleResponse 410 "" = .error ⟨410, "Sync token expired", false⟩
    ∧ ((⟨429, "Rate limited", true⟩ : GErr).retryable = true
        ↔ (429 = 429 ∨ 500 ≤ 429 ∨ (429 = 403 ∧ QUOTA_ERROR_REASONS.contains "" = true))) := by
  have h1 := google_response_classification.1 429 "" (by omega)
  have h2 := google_response_classification.1 410 "" (by omega)
  refine ⟨by rfl, by rfl, ?_⟩
  obtain ⟨e, he, _, hr⟩ := h1
  have : e = ⟨429, "Rate limited", true⟩ := by
    have : handleGoogleResponse 429 "" = .error ⟨429, "Rate limited", true⟩ := by rfl
    rw [this] at he
    cases he
    rfl
  rw [← this]
  exact hr

/-- Claim C7: `get_valid_access_token` returns the stored access token
with no side effect whenever `expires_at > now + 5min`; and when the
double-checked read inside the refresh lock still needs a refresh but no
refresh token is present, it marks the account needs-reauth and raises a
401 `GoogleAPIError` without any OAuth call. -/
theorem get_valid_access_token_spec (t1 : TokensRow) (now1 : Int) (t2 : TokensRow)
    (now2 : Int) (oauthStatus : Nat) (oauthAccessToken : String) :
    (now1 + TOKEN_REFRESH_BUFFER < t1.expires_at →
      getValidAccessTokenM t1 now1 t2 now2 oauthStatus oauthAccessToken
        = (.ok t1.access_token, []))
    ∧ (tokenNeedsRefresh t1.expires_at now1 = true →
      tokenNeedsRefresh t2.expires_at now2 = true →
      truthyStr t2.refresh_token = false →
      getValidAccessTokenM t1 now1 t2 now2 oauthStatus oauthAccessToken
        = (.error ⟨401, "Missing refresh token", false⟩, [TokenStep.markReauth])
      ∧ TokenStep.oauthCall
          ∉ (getValidAccessTokenM t1 now1 t2 now2 oauthStatus oauthAccessToken).2) := by
  constructor
  · intro h
    have hf : tokenNeedsRefresh t1.expires_at now1 = false := by
      simp only [tokenNeedsRefresh, decide_eq_false_iff_not]
      omega
    simp [getValidAccessTokenM, hf]
  · intro h1 h2 h3
    have heq : getValidAccessTokenM t1 now1 t2 now2 oauthStatus oauthAccessToken
        = (.error ⟨401, "Missing refresh token", false⟩, [TokenStep.markReauth]) := by
      simp [getValidAccessTokenM, h1, h2, h3]
    refine ⟨heq, ?_⟩
    rw [heq]
    simp

/-- Witness for C7 at concrete instants: a token expiring in 3600 s is
returned directly; an expired token with no refresh token marks
needs-reauth and fails. -/
theorem get_valid_access_token_spec_witness :
    getValidAccessTokenM ⟨"tok-a", some "rt", 3600⟩ 0 ⟨"tok-a", some "rt", 3600⟩ 1 200 "new"
      = (.ok "tok-a", [])
    ∧ getValidAccessTokenM ⟨"tok-b", none, 0⟩ 0 ⟨"tok-b", none, 0⟩ 1 200 "new"
      = (.error ⟨401, "Missing refresh token", false⟩, [TokenStep.markReauth]) := by
  constructor
  · exact (get_valid_access_token_spec ⟨"tok-a", some "rt", 3600⟩ 0
      ⟨"tok-a", some "rt", 3600⟩ 1 200 "new").1 (by decide)
  · exact ((get_valid_access_token_spec ⟨"tok-b", none, 0⟩ 0
      ⟨"tok-b", none, 0⟩ 1 200 "new").2 (by decide) (by decide) (by decide)).1

/-- Counterexample for C8: the three lists returned by `query_events` are
not pairwise disjoint.  A non-cancelled row with `recurrence = NULL` and
`recurring_event_id` set (an ordinary recurring-event exception) is
returned both in the first (single events) and in the third (exceptions)
list. -/
theorem query_events_not_disjoint_counterexample :
    (queryEvents [overlapRow] ["c1"]).1 = [overlapRow]
    ∧ (queryEvents [overlapRow] ["c1"]).2.2 = [overlapRow]
    ∧ overlapRow ∈ (queryEvents [overlapRow] ["c1"]).1
    ∧ overlapRow ∈ (queryEvents [overlapRow] ["c1"]).2.2 := by
  refine ⟨by decide, by decide, by decide, by decide⟩

/-- Claim C8 (amended): `query_events` returns the three lists
characterised by the source filters — single events (`recurrence = ∅`,
not cancelled), recurring masters (`recurrence ≠ ∅`,
`recurring_event_id = ∅`, not cancelled) and exceptions
(`recurring_event_id ≠ ∅`, cancelled rows included); cancelled rows are
excluded from the first two lists; the single and master lists are
disjoint and the master and exception lists are disjoint, but a
non-cancelled row with `recurrence = ∅` and `recurring_event_id ≠ ∅`
appears in both the single and the exception lists. -/
theorem query_events_amended (table : List EventRow) (cids : List String) :
    (∀ e, e ∈ (queryEvents table cids).1 ↔ e ∈ table
      ∧ (cids.contains e.google_calendar_id && e.source == "google"
          && e.recurrence == none && !(e.status == "cancelled")) = true)
    ∧ (∀ e, e ∈ (queryEvents table cids).2.1 ↔ e ∈ table
      ∧ (cids.contains e.google_calendar_id && e.source == "google"
          && !(e.recurrence == none) && e.recurring_event_id == none
          && !(e.status == "cancelled")) = true)
    ∧ (∀ e, e ∈ (queryEvents table cids).2.2 ↔ e ∈ table
      ∧ (cids.contains e.google_calendar_id && e.source == "google"
          && !(e.recurring_event_id == none)) = true)
    ∧ (∀ e, e ∈ (queryEvents table cids).1 → e ∉ (queryEvents table cids).2.1)
    ∧ (∀ e, e ∈ (queryEvents table cids).2.1 → e ∉ (queryEvents table cids).2.2) := by
  refine ⟨?_, ?_, ?_, ?_, ?_⟩
  · intro e
    simp [queryEvents, List.mem_filter]
  · intro e
    simp [queryEvents, List.mem_filter]
  · intro e
    simp [queryEvents, List.mem_filter]
  · intro e h1 h2
    simp only [queryEvents, List.mem_filter, Bool.and_eq_true] at h1 h2
    obtain ⟨-, ⟨⟨-, hrec⟩, -⟩⟩ := h1
    obtain ⟨-, ⟨⟨⟨-, hcnot⟩, -⟩, -⟩⟩ := h2
    rw [hrec] at hcnot
    simp at hcnot
  · intro e h1 h2
    simp only [queryEvents, List.mem_filter, Bool.and_eq_true] at h1 h2
    obtain ⟨-, ⟨⟨-, hreid⟩, -⟩⟩ := h1
    obtain ⟨-, ⟨-, hnot⟩⟩ := h2
    rw [hreid] at hnot
    simp at hnot

/-- Witness for C8 (amended) at a concrete table: a recurring master is
returned in the master list and not in the exception list. -/
theorem query_events_amended_witness :
    masterRow ∈ (queryEvents [masterRow] ["c1"]).2.1
    ∧ masterRow ∉ (queryEvents [masterRow] ["c1"]).2.2 := by
  have h := query_events_amended [masterRow] ["c1"]
  have hm : masterRow ∈ (queryEvents [masterRow] ["c1"]).2.1 := by decide
  exact ⟨hm, h.2.2.2.2 masterRow hm⟩

/-- Claim C1 (code bug): with a saved `next_page_token`, the sync engine
is supposed to resume the full sync by sending it as `pageToken` (and
suppressing `syncToken`).  The engine layer does compute
`sync_token = None` when a page token is saved, but it passes the page
token as keyword argument `page_token=`, which `get_events` does not
declare — Python raises `TypeError`, so no request is issued; moreover
the body of `get_events` initialises its local `page_token` to `None`,
so its first request never carries `pageToken` and carries `syncToken`
whenever its `sync_token` argument is truthy. -/
theorem get_events_page_token_code_bug :
    pythonKeywordsAccepted getEventsParamNames syncEngineGetEventsKeywords = false
    ∧ engineSyncTokenArg (some "old") (some "pg2") = none
    ∧ (∀ st : Option String,
        ((gcalRequestParams none st).map Prod.fst).contains "pageToken" = false)
    ∧ ((gcalRequestParams none (some "old")).map Prod.fst).contains "syncToken" = true := by
  refine ⟨by decide, by decide, ?_, by decide⟩
  intro st
  unfold gcalRequestParams
  cases hst : truthyStr st
  · rw [show truthyStr none = false from rfl]
    simp
  · rw [show truthyStr none = false from rfl]
    simp

theorem gcalPages_no_pt {Ev : Type} :
    ∀ w : List (WireResponse Ev), ((gcalPages w).all fun p => !pageHasNextPageToken p) = true
  | [] => rfl
  | w :: ws => by
    have ih := gcalPages_no_pt ws
    simp only [gcalPages, List.all_cons, pageHasNextPageToken, Bool.not_false, Bool.true_and]
    by_cases hpt : truthyStr w.nextPageToken = true
    · rw [if_pos hpt]
      exact ih
    · rw [if_neg hpt]
      by_cases hst : truthyStr w.nextSyncToken = true
      · rw [if_pos hst]
        rfl
      · rw [if_neg hst]
        rfl

theorem runPass_db_no_pt {Ev Ev' : Type} (cid : String) (decFn : Ev → Ev') (tf : Nat → Bool) :
    ∀ (pages : List (Page Ev)) (interrupt : Option GErr) (tasks : List Bool)
      (cpt : Option String),
      ((runPass cid decFn tf pages interrupt tasks cpt).db.all
        fun c => !dbCallHasPageToken c) = true
  | [], _, _, _ => rfl
  | Page.events evs npt :: rest, interrupt, tasks, cpt => by
    have ih := runPass_db_no_pt cid decFn tf rest interrupt
      (if evs.isEmpty then tasks else tasks ++ [tf tasks.length]) npt
    simpa only [runPass] using ih
  | Page.syncToken tok :: rest, interrupt, tasks, cpt => by
    have ih := runPass_db_no_pt cid decFn tf rest interrupt tasks cpt
    simp only [runPass, List.all_cons, dbCallHasPageToken, Bool.not_false, Bool.true_and]
    exact ih

theorem runPass_currentPT_false {Ev Ev' : Type} (cid : String) (decFn : Ev → Ev')
    (tf : Nat → Bool) :
    ∀ (pages : List (Page Ev)) (interrupt : Option GErr) (tasks : List Bool)
      (cpt : Option String),
      (pages.all fun p => !pageHasNextPageToken p) = true → truthyStr cpt = false →
      truthyStr (runPass cid decFn tf pages interrupt tasks cpt).currentPT = false
  | [], _, _, _ => fun _ h => h
  | Page.events evs npt :: rest, interrupt, tasks, cpt => fun hall _ => by
    simp only [List.all_cons, Bool.and_eq_true] at hall
    have hnpt : npt = none := by
      cases npt with
      | none => rfl
      | some s => simp [pageHasNextPageToken] at hall
    have ih := runPass_currentPT_false cid decFn tf rest interrupt
      (if evs.isEmpty then tasks else tasks ++ [tf tasks.length]) npt
      hall.2 (by rw [hnpt]; rfl)
    simpa only [runPass] using ih
  | Page.syncToken tok :: rest, interrupt, tasks, cpt => fun hall hcpt => by
    simp only [List.all_cons, Bool.and_eq_true] at hall
    have ih := runPass_currentPT_false cid decFn tf rest interrupt tasks cpt
      hall.2 hcpt
    simpa only [runPass] using ih

theorem runPass_err_none {Ev Ev' : Type} (cid : String) (decFn : Ev → Ev') (tf : Nat → Bool) :
    ∀ (pages : List (Page Ev)) (tasks : List Bool) (cpt : Option String),
      (runPass cid decFn tf pages none tasks cpt).err = none
  | [], _, _ => rfl
  | Page.events evs npt :: rest, tasks, cpt => by
    have ih := runPass_err_none cid decFn tf rest
      (if evs.isEmpty then tasks else tasks ++ [tf tasks.length]) npt
    simpa only [runPass] using ih
  | Page.syncToken tok :: rest, tasks, cpt => by
    have ih := runPass_err_none cid decFn tf rest tasks cpt
    simpa only [runPass] using ih

theorem runPass_update_mem {Ev Ev' : Type} (cid : String) (decFn : Ev → Ev') (tf : Nat → Bool)
    (tok : String) :
    ∀ (pages : List (Page Ev)) (interrupt : Option GErr) (tasks : List Bool)
      (cpt : Option String), Page.syncToken tok ∈ pages →
      DbCall.updateSyncState cid tok none ∈ (runPass cid decFn tf pages interrupt tasks cpt).db
  | [], _, _, _ => fun hmem => absurd hmem (List.not_mem_nil _)
  | Page.events evs npt :: rest, interrupt, tasks, cpt => fun hmem => by
    have hrest : Page.syncToken tok ∈ rest := by
      rcases List.mem_cons.mp hmem with heq | h
      · cases heq
      · exact h
    have ih := runPass_update_mem cid decFn tf tok rest interrupt
      (if evs.isEmpty then tasks else tasks ++ [tf tasks.length]) npt hrest
    simpa only [runPass] using ih
  | Page.syncToken tok' :: rest, interrupt, tasks, cpt => fun hmem => by
    simp only [runPass]
    rcases List.mem_cons.mp hmem with heq | h
    · cases heq
      exact List.mem_cons_self _ _
    · exact List.mem_cons_of_mem _
        (runPass_update_mem cid decFn tf tok rest interrupt tasks cpt h)

theorem runPass_error_queue {Ev Ev' : Type} (cid : String) (decFn : Ev → Ev') (tf : Nat → Bool)
    (tok : String) :
    ∀ (pre : List (Page Ev)) (interrupt : Option GErr) (tasks : List Bool)
      (cpt : Option String), ((spawnFlags tf pre tasks).any id) = true →
      QRec.error cid "500" "Failed to persist some events" true
        ∈ (runPass cid decFn tf (pre ++ [Page.syncToken tok]) interrupt tasks cpt).queue
  | [], interrupt, tasks, cpt => fun hany => by
    simp only [List.nil_append, runPass, spawnFlags] at *
    rw [hany]
    exact List.mem_cons_self _ _
  | Page.events evs npt :: rest, interrupt, tasks, cpt => fun hany => by
    have ih := runPass_error_queue cid decFn tf tok rest interrupt
      (if evs.isEmpty then tasks else tasks ++ [tf tasks.length]) npt
      (by simpa only [spawnFlags] using hany)
    simp only [List.cons_append, runPass]
    exact List.mem_cons_of_mem _ ih
  | Page.syncToken tok' :: rest, interrupt, tasks, cpt => fun hany => by
    have ih := runPass_error_queue cid decFn tf tok rest interrupt tasks cpt
      (by simpa only [spawnFlags] using hany)
    simp only [List.cons_append, runPass]
    refine List.mem_append_right _ (List.mem_cons_of_mem _ ih)

theorem fetchAndSyncCont_ok {Ev' : Type} (cid : String) (st0 pt0 : Option String)
    (r1 r2 : PassOut Ev') (h : r1.err = none) :
    fetchAndSyncCont cid st0 pt0 r1 r2 = (r1.db, r1.queue ++ [QRec.done cid]) := by
  rcases r1 with ⟨db1, q1, err1, cpt1⟩
  simp only at h
  cases err1 with
  | none => rfl
  | some e => simp at h

theorem fetchAndSyncCont_db_no_pt {Ev' : Type} (cid : String) (st0 pt0 : Option String)
    (r1 r2 : PassOut Ev')
    (hdb1 : (r1.db.all fun c => !dbCallHasPageToken c) = true)
    (hdb2 : (r2.db.all fun c => !dbCallHasPageToken c) = true)
    (hpt1 : truthyStr r1.currentPT = false)
    (hpt2 : truthyStr r2.currentPT = false) :
    ((fetchAndSyncCont cid st0 pt0 r1 r2).1.all fun c => !dbCallHasPageToken c) = true := by
  rcases r1 with ⟨db1, q1, err1, cpt1⟩
  rcases r2 with ⟨db2, q2, err2, cpt2⟩
  simp only at hdb1 hdb2 hpt1 hpt2
  cases err1 with
  | none => exact hdb1
  | some e =>
    by_cases h410 : e.status = 410
    · cases err2 with
      | none =>
        simp only [fetchAndSyncCont]
        rw [if_pos h410]
        simp only [List.all_append, hdb1, hdb2, List.all_cons, List.all_nil]
        rfl
      | some e2 =>
        simp only [fetchAndSyncCont]
        rw [if_pos h410]
        simp only [terminalExit, hpt2, Bool.false_eq_true, if_false, List.append_nil,
          List.all_append, hdb1, hdb2, List.all_cons, List.all_nil]
        rfl
    · by_cases hp : truthyStr pt0 = true
      · cases err2 with
        | none =>
          simp only [fetchAndSyncCont]
          rw [if_neg h410, if_pos hp]
          simp only [List.all_append, hdb1, hdb2]
          rfl
        | some e2 =>
          simp only [fetchAndSyncCont]
          rw [if_neg h410, if_pos hp]
          simp only [terminalExit, hpt2, Bool.false_eq_true, if_false, List.append_nil,
            List.all_append, hdb1, hdb2]
          rfl
      · simp only [fetchAndSyncCont]
        rw [if_neg h410, if_neg hp]
        simp only [terminalExit, hpt1, Bool.false_eq_true, if_false, List.append_nil,
          List.all_append, hdb1]

theorem fetchAndSync_db_no_pt {Ev Ev' : Type} (cid : String) (decFn : Ev → Ev')
    (st0 pt0 : Option String) (run1 run2 : GenResult Ev) (tf1 tf2 : Nat → Bool)
    (h1 : (run1.pages.all fun p => !pageHasNextPageToken p) = true)
    (h2 : (run2.pages.all fun p => !pageHasNextPageToken p) = true) :
    ((fetchAndSync cid decFn st0 pt0 run1 run2 tf1 tf2).1.all
      fun c => !dbCallHasPageToken c) = true := by
  unfold fetchAndSync
  exact fetchAndSyncCont_db_no_pt cid st0 pt0 _ _
    (runPass_db_no_pt cid decFn tf1 run1.pages run1.interrupt [] none)
    (runPass_db_no_pt cid decFn tf2 run2.pages run2.interrupt [] none)
    (runPass_currentPT_false cid decFn tf1 run1.pages run1.interrupt [] none h1 rfl)
    (runPass_currentPT_false cid decFn tf2 run2.pages run2.interrupt [] none h2 rfl)

/-- Claim C2 (code bug): the spec requires that after a page carrying
`nextPageToken = t` is emitted, a terminal error leads to
`update_calendar_sync_state` persisting `t` so a later run resumes.  In
the code, `get_events` yields events pages without any
`next_page_token` entry (and does not even accept the `page_token=`
keyword the engine passes), so the engine's `current_page_token` stays
`None` and no page token is ever persisted: composed with the real
generator, every `update_calendar_sync_state` call carries
`page_token=None`, and in the concrete mid-sync-failure scenario
(first page with `nextPageToken="pg3"`, then a retryable 500) no sync
state write happens at all even though the retryable `sync_error`
record is emitted. -/
theorem sync_page_token_persistence_code_bug :
    (∀ (cid : String) (st0 pt0 : Option String) (w1 w2 : List (WireResponse Nat))
      (i1 i2 : Option GErr) (tf1 tf2 : Nat → Bool),
      ((fetchAndSync cid (id : Nat → Nat) st0 pt0 ⟨gcalPages w1, i1⟩ ⟨gcalPages w2, i2⟩
        tf1 tf2).1.all fun c => !dbCallHasPageToken c) = true)
    ∧ (∀ w : List (WireResponse Nat),
        ((gcalPages w).all fun p => !pageHasNextPageToken p) = true)
    ∧ pythonKeywordsAccepted getEventsParamNames syncEngineGetEventsKeywords = false
    ∧ (fetchAndSync "cal-1" (id : Nat → Nat) none none
        ⟨gcalPages [⟨[7], some "pg3", none⟩], some ⟨500, "down", true⟩⟩ ⟨[], none⟩
        (fun _ => false) (fun _ => false)).1 = []
    ∧ QRec.error "cal-1" "500" "down" true
        ∈ (fetchAndSync "cal-1" (id : Nat → Nat) none none
            ⟨gcalPages [⟨[7], some "pg3", none⟩], some ⟨500, "down", true⟩⟩ ⟨[], none⟩
            (fun _ => false) (fun _ => false)).2 := by
  refine ⟨?_, gcalPages_no_pt, by decide, by decide, by decide⟩
  intro cid st0 pt0 w1 w2 i1 i2 tf1 tf2
  exact fetchAndSync_db_no_pt cid id st0 pt0 ⟨gcalPages w1, i1⟩ ⟨gcalPages w2, i2⟩ tf1 tf2
    (gcalPages_no_pt w1) (gcalPages_no_pt w2)

/-- Claim C4: at the final page of a sync run the engine awaits the
outstanding upsert tasks and persists the new sync token with
`next_page_token` cleared (`page_token` is left at its default `None`,
and `update_calendar_sync_state` always writes `next_page_token`, as
`NULL` for `None`), even when some upsert task failed; if any failed, a
retryable persist-error record is additionally emitted; and in a
successful run every persisted sync state has `next_page_token = ∅`. -/
theorem final_page_persist_spec {Ev Ev' : Type} (cid : String) (decFn : Ev → Ev')
    (tf1 tf2 : Nat → Bool) (st0 pt0 : Option String) (pagesPre : List (Page Ev))
    (tok : String) (run2 : GenResult Ev) (now_iso : String) :
    DbCall.updateSyncState cid tok none
      ∈ (fetchAndSync cid decFn st0 pt0 ⟨pagesPre ++ [Page.syncToken tok], none⟩
          run2 tf1 tf2).1
    ∧ ((spawnFlags tf1 pagesPre []).any id = true →
        QRec.error cid "500" "Failed to persist some events" true
          ∈ (fetchAndSync cid decFn st0 pt0 ⟨pagesPre ++ [Page.syncToken tok], none⟩
              run2 tf1 tf2).2)
    ∧ (((fetchAndSync cid decFn st0 pt0 ⟨pagesPre ++ [Page.syncToken tok], none⟩
          run2 tf1 tf2).1.all fun c => !dbCallHasPageToken c) = true)
    ∧ ("next_page_token", DbVal.null)
        ∈ updateCalendarSyncStateData cid tok none none none none none now_iso
    ∧ ("sync_token", DbVal.str tok)
        ∈ updateCalendarSyncStateData cid tok none none none none none now_iso := by
  have herr := runPass_err_none cid decFn tf1 (pagesPre ++ [Page.syncToken tok]) [] none
  have hred : fetchAndSync cid decFn st0 pt0 ⟨pagesPre ++ [Page.syncToken tok], none⟩
      run2 tf1 tf2
      = ((runPass cid decFn tf1 (pagesPre ++ [Page.syncToken tok]) none [] none).db,
         (runPass cid decFn tf1 (pagesPre ++ [Page.syncToken tok]) none [] none).queue
           ++ [QRec.done cid]) := by
    unfold fetchAndSync
    exact fetchAndSyncCont_ok cid st0 pt0 _ _ herr
  rw [hred]
  refine ⟨?_, ?_, ?_, ?_, ?_⟩
  · exact runPass_update_mem cid decFn tf1 tok _ none [] none
      (List.mem_append_right _ (List.mem_singleton.mpr rfl))
  · intro hany
    exact List.mem_append_left _ (runPass_error_queue cid decFn tf1 tok pagesPre none [] none hany)
  · exact runPass_db_no_pt cid decFn tf1 _ none [] none
  · simp [updateCalendarSyncStateData]
  · simp [updateCalendarSyncStateData]

/-- Witness for C4 at a concrete run: one non-empty events page whose
upsert task fails, then the final page with `nextSyncToken"tok-1"`. -/
theorem final_page_persist_spec_witness :
    DbCall.updateSyncState "cal-1" "tok-1" none
      ∈ (fetchAndSync "cal-1" (id : Nat → Nat) none none
          ⟨[Page.events [5] none] ++ [Page.syncToken "tok-1"], none⟩ ⟨[], none⟩
          (fun _ => true) (fun _ => true)).1
    ∧ QRec.error "cal-1" "500" "Failed to persist some events" true
      ∈ (fetchAndSync "cal-1" (id : Nat → Nat) none none
          ⟨[Page.events [5] none] ++ [Page.syncToken "tok-1"], none⟩ ⟨[], none⟩
          (fun _ => true) (fun _ => true)).2 := by
  have h := final_page_persist_spec "cal-1" (id : Nat → Nat) (fun _ => true) (fun _ => true)
    none none [Page.events [5] none] "tok-1" ⟨[], none⟩ "now"
  exact ⟨h.1, h.2.1 (by decide)⟩

theorem withRetryGo_nonretryable {α : Type} (outcomes : Nat → Outcome α) (jitter : Nat → ℚ) :
    ∀ (k fuel attempt calls : Nat) (delays : List ℚ) (last e : GErr),
      k < fuel →
      (∀ j, j < k → caughtRetryable (outcomes (attempt + j)) = true) →
      outcomes (attempt + k) = .apiErr e → e.retryable = false →
      withRetryGo outcomes jitter fuel attempt calls delays last
        = .raised e (calls + k + 1)
            (delays ++ (List.range' attempt k).map (retryDelay jitter))
  | 0, fuel, attempt, calls, delays, last, e => fun hk _ hout hr => by
    cases fuel with
    | zero => omega
    | succ f =>
      rw [Nat.add_zero] at hout
      simp only [withRetryGo, hout]
      rw [if_neg (by rw [hr]; exact Bool.false_ne_true)]
      simp [List.range']
  | k + 1, fuel, attempt, calls, delays, last, e => fun hk hpre hout hr => by
    cases fuel with
    | zero => omega
    | succ f =>
      have h0 : caughtRetryable (outcomes attempt) = true := by
        have := hpre 0 (by omega)
        simpa using this
      have hpre' : ∀ j, j < k → caughtRetryable (outcomes (attempt + 1 + j)) = true := by
        intro j hj
        have hx : attempt + 1 + j = attempt + (j + 1) := by omega
        rw [hx]
        exact hpre (j + 1) (by omega)
      have hout' : outcomes (attempt + 1 + k) = .apiErr e := by
        have hx : attempt + 1 + k = attempt + (k + 1) := by omega
        rw [hx]
        exact hout
      have hdel : (delays ++ [retryDelay jitter attempt])
          ++ (List.range' (attempt + 1) k).map (retryDelay jitter)
          = delays ++ (List.range' attempt (k + 1)).map (retryDelay jitter) := by
        rw [List.append_assoc, List.range'_succ, List.map_cons]
        rfl
      rcases ho : outcomes attempt with v | e0 | _ | _ | _
      · rw [ho] at h0
        simp [caughtRetryable] at h0
      · have he0 : e0.retryable = true := by
          rw [ho] at h0
          simpa [caughtRetryable] using h0
        have ih := withRetryGo_nonretryable outcomes jitter k f (attempt + 1) (calls + 1)
          (delays ++ [retryDelay jitter attempt]) e0 e (by omega) hpre' hout' hr
        simp only [withRetryGo, ho]
        rw [if_pos he0, ih, hdel]
        congr 1
        omega
      · have ih := withRetryGo_nonretryable outcomes jitter k f (attempt + 1) (calls + 1)
          (delays ++ [retryDelay jitter attempt]) ⟨504, "Request timed out", true⟩ e
          (by omega) hpre' hout' hr
        simp only [withRetryGo, ho]
        rw [ih, hdel]
        congr 1
        omega
      · have ih := withRetryGo_nonretryable outcomes jitter k f (attempt + 1) (calls + 1)
          (delays ++ [retryDelay jitter attempt]) ⟨503, "Network error", true⟩ e
          (by omega) hpre' hout' hr
        simp only [withRetryGo, ho]
        rw [ih, hdel]
        congr 1
        omega
      · rw [ho] at h0
        simp [caughtRetryable] at h0

theorem withRetryGo_exhausted {α : Type} (outcomes : Nat → Outcome α) (jitter : Nat → ℚ) :
    ∀ (m attempt calls : Nat) (delays : List ℚ) (last : GErr),
      (∀ j, j < m + 1 → caughtRetryable (outcomes (attempt + j)) = true) →
      withRetryGo outcomes jitter (m + 1) attempt calls delays last
        = .raised (caughtErr (outcomes (attempt + m))) (calls + m + 1)
            (delays ++ (List.range' attempt (m + 1)).map (retryDelay jitter))
  | 0, attempt, calls, delays, last => fun hpre => by
    have h0 : caughtRetryable (outcomes attempt) = true := by
      have := hpre 0 (by omega)
      simpa using this
    have hone : (List.range' attempt 1).map (retryDelay jitter) = [retryDelay jitter attempt] := by
      simp [List.range']
    rcases ho : outcomes attempt with v | e0 | _ | _ | _
    · rw [ho] at h0
      simp [caughtRetryable] at h0
    · have he0 : e0.retryable = true := by
        rw [ho] at h0
        simpa [caughtRetryable] using h0
      simp only [withRetryGo, ho]
      rw [if_pos he0]
      simp only [withRetryGo, Nat.add_zero, ho, caughtErr, hone]
    · simp only [withRetryGo, Nat.add_zero, ho, caughtErr, hone]
    · simp only [withRetryGo, Nat.add_zero, ho, caughtErr, hone]
    · rw [ho] at h0
      simp [caughtRetryable] at h0
  | m + 1, attempt, calls, delays, last => fun hpre => by
    have h0 : caughtRetryable (outcomes attempt) = true := by
      have := hpre 0 (by omega)
      simpa using this
    have hpre' : ∀ j, j < m + 1 → caughtRetryable (outcomes (attempt + 1 + j)) = true := by
      intro j hj
      have hx : attempt + 1 + j = attempt + (j + 1) := by omega
      rw [hx]
      exact hpre (j + 1) (by omega)
    have hidx : attempt + 1 + m = attempt + (m + 1) := by omega
    have hdel : (delays ++ [retryDelay jitter attempt])
        ++ (List.range' (attempt + 1) (m + 1)).map (retryDelay jitter)
        = delays ++ (List.range' attempt (m + 2)).map (retryDelay jitter) := by
      rw [List.append_assoc, List.range'_succ, List.map_cons]
      rfl
    rcases ho : outcomes attempt with v | e0 | _ | _ | _
    · rw [ho] at h0
      simp [caughtRetryable] at h0
    · have he0 : e0.retryable = true := by
        rw [ho] at h0
        simpa [caughtRetryable] using h0
      have ih := withRetryGo_exhausted outcomes jitter m (attempt + 1) (calls + 1)
        (delays ++ [retryDelay jitter attempt]) e0 hpre'
      rw [withRetryGo, ho]
      dsimp only
      rw [if_pos he0, ih, hdel, hidx]
      congr 1
      omega
    · have ih := withRetryGo_exhausted outcomes jitter m (attempt + 1) (calls + 1)
        (delays ++ [retryDelay jitter attempt]) ⟨504, "Request timed out", true⟩ hpre'
      rw [withRetryGo, ho]
      dsimp only
      rw [ih, hdel, hidx]
      congr 1
      omega
    · have ih := withRetryGo_exhausted outcomes jitter m (attempt + 1) (calls + 1)
        (delays ++ [retryDelay jitter attempt]) ⟨503, "Network error", true⟩ hpre'
      rw [withRetryGo, ho]
      dsimp only
      rw [ih, hdel, hidx]
      congr 1
      omega
    · rw [ho] at h0
      simp [caughtRetryable] at h0

theorem withRetryGo_delays_shape {α : Type} (outcomes : Nat → Outcome α) (jitter : Nat → ℚ) :
    ∀ (fuel attempt calls : Nat) (delays : List ℚ) (last : GErr),
      delays = (List.range attempt).map (retryDelay jitter) →
      ∃ m, (withRetryGo outcomes jitter fuel attempt calls delays last).delaysOf
        = (List.range m).map (retryDelay jitter)
  | 0, attempt, calls, delays, last => fun hdel => ⟨attempt, by
      simp only [withRetryGo, RetryResult.delaysOf]
      exact hdel⟩
  | fuel + 1, attempt, calls, delays, last => fun hdel => by
    have hnext : delays ++ [retryDelay jitter attempt]
        = (List.range (attempt + 1)).map (retryDelay jitter) := by
      rw [hdel, List.range_succ, List.map_append]
      rfl
    rcases ho : outcomes attempt with v | e0 | _ | _ | _
    · exact ⟨attempt, by simp only [withRetryGo, ho, RetryResult.delaysOf]; exact hdel⟩
    · by_cases he0 : e0.retryable = true
      · have ih := withRetryGo_delays_shape outcomes jitter fuel (attempt + 1) (calls + 1)
          (delays ++ [retryDelay jitter attempt]) e0 hnext
        simpa only [withRetryGo, ho, if_pos he0] using ih
      · exact ⟨attempt, by
          simp only [withRetryGo, ho]
          rw [if_neg he0]
          exact hdel⟩
    · have ih := withRetryGo_delays_shape outcomes jitter fuel (attempt + 1) (calls + 1)
        (delays ++ [retryDelay jitter attempt]) ⟨504, "Request timed out", true⟩ hnext
      simpa only [withRetryGo, ho] using ih
    · have ih := withRetryGo_delays_shape outcomes jitter fuel (attempt + 1) (calls + 1)
        (delays ++ [retryDelay jitter attempt]) ⟨503, "Network error", true⟩ hnext
      simpa only [withRetryGo, ho] using ih
    · exact ⟨attempt, by simp only [withRetryGo, ho, RetryResult.delaysOf]; exact hdel⟩

/-- Claim C5: `with_retry` executes the wrapped coroutine at most 5
times (`MAX_RETRIES`); a non-retryable `GoogleAPIError` raised at
attempt `k` propagates immediately after exactly `k + 1` executions; when
all 5 attempts raise caught retryable failures, the error recorded for
the last attempt is raised after 5 executions; and the slept backoff
delays always form the initial segment of
`i ↦ BASE_DELAY_SECONDS * 2 ^ i * jitter i` where `jitter i` is the
`random.uniform(0.5, 1.5)` draw of attempt `i`. -/
theorem with_retry_spec {α : Type} (outcomes : Nat → Outcome α) (jitter : Nat → ℚ) :
    (withRetryM outcomes jitter).callCount ≤ 5
    ∧ (∀ k e, k < 5 → (∀ j, j < k → caughtRetryable (outcomes j) = true) →
        outcomes k = .apiErr e → e.retryable = false →
        withRetryM outcomes jitter
          = .raised e (k + 1) ((List.range k).map (retryDelay jitter)))
    ∧ ((∀ j, j < 5 → caughtRetryable (outcomes j) = true) →
        withRetryM outcomes jitter
          = .raised (caughtErr (outcomes 4)) 5 ((List.range 5).map (retryDelay jitter)))
    ∧ (∃ m, (withRetryM outcomes jitter).delaysOf = (List.range m).map (retryDelay jitter))
    ∧ (∀ i, retryDelay jitter i = BASE_DELAY_SECONDS * 2 ^ i * jitter i) := by
  refine ⟨?_, ?_, ?_, ?_, fun i => rfl⟩
  · have h := withRetryGo_calls_le outcomes jitter MAX_RETRIES 0 0 []
      ⟨500, "No retries configured", false⟩
    simpa [withRetryM, MAX_RETRIES] using h
  · intro k e hk hpre hout hr
    have h := withRetryGo_nonretryable outcomes jitter k MAX_RETRIES 0 0 []
      ⟨500, "No retries configured", false⟩ e (by simpa [MAX_RETRIES] using hk)
      (by simpa using hpre) (by simpa using hout) hr
    simpa [withRetryM, List.range_eq_range'] using h
  · intro hpre
    have h := withRetryGo_exhausted outcomes jitter 4 0 0 []
      ⟨500, "No retries configured", false⟩ (by simpa using hpre)
    simpa [withRetryM, MAX_RETRIES, List.range_eq_range'] using h
  · exact withRetryGo_delays_shape outcomes jitter MAX_RETRIES 0 0 []
      ⟨500, "No retries configured", false⟩ (by simp)

/-- Witness for C5: a 504-classified timeout at attempt 0 followed by a
non-retryable 400 at attempt 1 runs the coroutine exactly twice and
raises the 400. -/
theorem with_retry_spec_witness :
    withRetryM (fun i => if i = 0 then (Outcome.timeoutExc : Outcome Nat)
        else .apiErr ⟨400, "bad", false⟩) (fun _ => 1)
      = .raised ⟨400, "bad", false⟩ 2
          ((List.range 1).map (retryDelay fun _ => 1)) := by
  have h := (with_retry_spec (fun i => if i = 0 then (Outcome.timeoutExc : Outcome Nat)
      else .apiErr ⟨400, "bad", false⟩) (fun _ => 1)).2.1
  refine h 1 ⟨400, "bad", false⟩ (by omega) ?_ rfl rfl
  intro j hj
  have hj0 : j = 0 := by omega
  subst hj0
  rfl

/-- Claim C9: `decrypt(encrypt(s, user_id), user_id) = s` for every
plaintext byte string (in particular every UTF-8 string, including the
empty one) and every user id, for any cipher and key-derivation
function with the documented AES-GCM behaviour and any master secret,
salt and IV of the correct lengths. -/
theorem encrypt_decrypt_roundtrip (C : AEADCipher)
    (kdf : List Nat → List Nat → Nat → Nat → List Nat) (master uid salt iv pt : List Nat)
    (hsalt : salt.length = SALT_LENGTH) (hiv : iv.length = IV_LENGTH)
    (hsaltb : ∀ b ∈ salt, b < 256) (hivb : ∀ b ∈ iv, b < 256)
    (hptb : ∀ b ∈ pt, b < 256) :
    decryptM C kdf master uid (encryptM C kdf master uid salt iv pt) = .ok pt := by
  obtain ⟨hver, hs, hi, hc⟩ := encryptCombined_slices C kdf master uid salt iv pt hsalt hiv
  unfold encryptM decryptM
  rw [base64_decode_encode _ (encryptCombined_bytes C kdf master uid salt iv pt hsaltb hivb hptb)]
  simp only [hver, if_true, hs, hi, hc]
  rw [C.dec_enc _ _ _ _ hptb]

/-- Witness for C9 at the empty plaintext with concrete toy cipher,
key-derivation function, master secret, user id, salt and IV. -/
theorem encrypt_decrypt_roundtrip_witness :
    decryptM toyCipher toyKdf cexMaster cexUid
      (encryptM toyCipher toyKdf cexMaster cexUid cexSalt cexIv []) = .ok [] :=
  encrypt_decrypt_roundtrip toyCipher toyKdf cexMaster cexUid cexSalt cexIv []
    (by decide) (by decide) (by decide) (by decide) (by decide)

/-- Counterexample for C3: the token is not `base64(iv(12) ||
ciphertext || tag(16))` and the key-derivation salt is not fixed.  At a
concrete input with empty plaintext the decoded token has length 45,
not 12 + 0 + 16 = 28; its first 12 bytes are a version byte and salt
prefix, not the IV; its first byte is the version byte 0x02; and two
calls differing only in their random salt embed the two different salts
(bytes 1..16) that are also handed to the key-derivation function. -/
theorem encrypt_token_layout_counterexample :
    (base64Decode (encryptM toyCipher toyKdf cexMaster cexUid cexSalt cexIv [])).map
        List.length = some 45
    ∧ ¬(45 = 12 + (0 + 16))
    ∧ (base64Decode (encryptM toyCipher toyKdf cexMaster cexUid cexSalt cexIv [])).map
        (fun l => l.take 12) ≠ some cexIv
    ∧ (base64Decode (encryptM toyCipher toyKdf cexMaster cexUid cexSalt cexIv [])).map
        (fun l => l.take 1) = some versionByteV2
    ∧ cexSalt ≠ cexSalt2
    ∧ (base64Decode (encryptM toyCipher toyKdf cexMaster cexUid cexSalt cexIv [])).map
        (fun l => (l.drop 1).take 16) = some cexSalt
    ∧ (base64Decode (encryptM toyCipher toyKdf cexMaster cexUid cexSalt2 cexIv [])).map
        (fun l => (l.drop 1).take 16) = some cexSalt2
    ∧ deriveKeyM toyKdf cexMaster cexUid cexSalt PBKDF2_ITERATIONS_V2
        ≠ deriveKeyM toyKdf cexMaster cexUid cexSalt2 PBKDF2_ITERATIONS_V2 := by
  refine ⟨by decide, by decide, by decide, by decide, by decide, by decide, by decide, by decide⟩

/-- Claim C3 (amended): `encrypt(plaintext, user_id)` returns
`base64(0x02 || salt(16) || iv(12) || ciphertext·tag(16))` where the
ciphertext-with-tag is AES-GCM under a key derived by
PBKDF2-HMAC-SHA256 with 600000 iterations from key material
`master_secret || user_id` and the per-call random 16-byte salt (not
HKDF with a fixed salt), with AAD `"chronos-v1:" || user_id`. -/
theorem encrypt_token_layout_amended (C : AEADCipher)
    (kdf : List Nat → List Nat → Nat → Nat → List Nat) (master uid salt iv pt : List Nat)
    (hsalt : salt.length = SALT_LENGTH) (hiv : iv.length = IV_LENGTH)
    (hsaltb : ∀ b ∈ salt, b < 256) (hivb : ∀ b ∈ iv, b < 256)
    (hptb : ∀ b ∈ pt, b < 256) :
    encryptM C kdf master uid salt iv pt
      = base64Encode ([2] ++ salt ++ iv ++
          C.enc (kdf (master ++ uid) salt 600000 32) iv pt
            ("chronos-v1:".toList.map Char.toNat ++ uid))
    ∧ base64Decode (encryptM C kdf master uid salt iv pt)
        = some (encryptCombined C kdf master uid salt iv pt)
    ∧ (encryptCombined C kdf master uid salt iv pt).take 1 = versionByteV2
    ∧ ((encryptCombined C kdf master uid salt iv pt).drop 1).take SALT_LENGTH = salt
    ∧ ((encryptCombined C kdf master uid salt iv pt).drop (1 + SALT_LENGTH)).take IV_LENGTH = iv
    ∧ (encryptCombined C kdf master uid salt iv pt).drop (1 + SALT_LENGTH + IV_LENGTH)
        = C.enc (deriveKeyM kdf master uid salt PBKDF2_ITERATIONS_V2) iv pt (buildAadM uid)
    ∧ (encryptCombined C kdf master uid salt iv pt).length
        = 1 + SALT_LENGTH + IV_LENGTH + (pt.length + 16) := by
  obtain ⟨h1, h2, h3, h4⟩ := encryptCombined_slices C kdf master uid salt iv pt hsalt hiv
  refine ⟨rfl, ?_, h1, h2, h3, h4, ?_⟩
  · exact base64_decode_encode _
      (encryptCombined_bytes C kdf master uid salt iv pt hsaltb hivb hptb)
  · simp only [encryptCombined, versionByteV2, List.length_append, List.length_cons,
      List.length_nil, hsalt, hiv, C.enc_length, SALT_LENGTH, IV_LENGTH]

/-- Witness for C3 (amended) at the concrete toy instance with empty
plaintext: the token equals the amended layout and has length
1 + 16 + 12 + 16. -/
theorem encrypt_token_layout_amended_witness :
    encryptM toyCipher toyKdf cexMaster cexUid cexSalt cexIv []
      = base64Encode ([2] ++ cexSalt ++ cexIv ++
          toyCipher.enc (toyKdf (cexMaster ++ cexUid) cexSalt 600000 32) cexIv []
            ("chronos-v1:".toList.map Char.toNat ++ cexUid))
    ∧ (encryptCombined toyCipher toyKdf cexMaster cexUid cexSalt cexIv []).length = 45 := by
  have h := encrypt_token_layout_amended toyCipher toyKdf cexMaster cexUid cexSalt cexIv []
    (by decide) (by decide) (by decide) (by decide) (by decide)
  refine ⟨h.1, ?_⟩
  rw [h.2.2.2.2.2.2]
  rfl

/-- Claim C10: for every stored event row and user, `decrypt_event`
(frontend format) returns a result and never propagates a decryption
failure; a failing ciphertext field falls back to `""` for `summary`
and `None` for `description`/`location`, and every other output field
is computed from the row alone, independent of the decryption
outcomes. -/
theorem decrypt_event_spec (C : AEADCipher)
    (kdf : List Nat → List Nat → Nat → Nat → List Nat) (master uid : List Nat)
    (e : StoredEventRow) :
    ∃ fe, decryptEventFrontend C kdf master uid e = .ok fe
      ∧ (∀ tok ex, e.summary = some tok → tok ≠ [] →
          decryptM C kdf master uid tok = .error ex → fe.summary = some [])
      ∧ (∀ tok ex, e.description = some tok → tok ≠ [] →
          decryptM C kdf master uid tok = .error ex → fe.description = none)
      ∧ (∀ tok ex, e.location = some tok → tok ≠ [] →
          decryptM C kdf master uid tok = .error ex → fe.location = none)
      ∧ fe.id = e.google_event_id
      ∧ fe.calendarId = e.google_calendar_id
      ∧ fe.startVal = pyOrEmptyDict e.start_datetime
      ∧ fe.endVal = pyOrEmptyDict e.end_datetime
      ∧ fe.status = e.status.getD "confirmed"
      ∧ fe.visibility = e.visibility.getD "default"
      ∧ fe.transparency = e.transparency.getD "opaque"
      ∧ fe.recurrence = normalizeRecurrence e.recurrence
      ∧ fe.recurringEventId = e.recurring_event_id
      ∧ fe.colorId = e.color_id
      ∧ fe.created = e.created_at
      ∧ fe.updated = e.updated_at
      ∧ fe.attendees = e.attendees
      ∧ fe.organizer = e.organizer
      ∧ fe.reminders = e.reminders
      ∧ fe.conferenceData = e.conference_data
      ∧ fe.htmlLink = e.html_link
      ∧ fe.iCalUID = e.ical_uid := by
  obtain ⟨vs, hs, hsf⟩ := safeDecrypt_spec C kdf master uid e.summary (some [])
  obtain ⟨vd, hd, hdf⟩ := safeDecrypt_spec C kdf master uid e.description none
  obtain ⟨vl, hl, hlf⟩ := safeDecrypt_spec C kdf master uid e.location none
  refine ⟨{ id := e.google_event_id
            calendarId := e.google_calendar_id
            startVal := pyOrEmptyDict e.start_datetime
            endVal := pyOrEmptyDict e.end_datetime
            status := e.status.getD "confirmed"
            visibility := e.visibility.getD "default"
            transparency := e.transparency.getD "opaque"
            recurrence := normalizeRecurrence e.recurrence
            recurringEventId := e.recurring_event_id
            colorId := e.color_id
            created := e.created_at
            updated := e.updated_at
            summary := vs
            description := vd
            location := vl
            attendees := e.attendees
            organizer := e.organizer
            reminders := e.reminders
            conferenceData := e.conference_data
            htmlLink := e.html_link
            iCalUID := e.ical_uid
            originalStartTime :=
              match e.original_start_time with
              | none => none
              | some s =>
                if s.isEmpty then none
                else if s.toList.contains 'T' then some ("dateTime", s)
                else some ("date", s) }, ?_, ?_, ?_, ?_,
    rfl, rfl, rfl, rfl, rfl, rfl, rfl, rfl, rfl, rfl, rfl, rfl, rfl, rfl, rfl, rfl, rfl, rfl⟩
  · unfold decryptEventFrontend
    rw [hs, hd, hl]
    rfl
  · intro tok ex h1 h2 h3
    exact hsf tok ex h1 h2 h3
  · intro tok ex h1 h2 h3
    exact hdf tok ex h1 h2 h3
  · intro tok ex h1 h2 h3
    exact hlf tok ex h1 h2 h3

/-- Witness for C10 at a concrete row whose ciphertext fields are not
valid base64: the call succeeds, the summary falls back to the empty
string and the description to `None`. -/
theorem decrypt_event_spec_witness :
    ((decryptEventFrontend toyCipher toyKdf cexMaster cexUid cexRow).toOption.map
      FrontendEvent.summary = some (some []))
    ∧ ((decryptEventFrontend toyCipher toyKdf cexMaster cexUid cexRow).toOption.map
      FrontendEvent.description = some none) := by
  obtain ⟨fe, hok, hsum, hdesc, _⟩ :=
    decrypt_event_spec toyCipher toyKdf cexMaster cexUid cexRow
  have h1 := hsum ['!'] .valueError rfl (by decide) rfl
  have h2 := hdesc ['!'] .valueError rfl (by decide) rfl
  rw [hok]
  simp [Except.toOption, h1, h2]

end Chronos
